import Mathlib

/-!
Verification of the Druid dialect adapter (`superset/db_engine_specs/druid.py`).

The development shallowly embeds the adapter: Python dicts become ordered
association lists (insertion order preserved, assignment replaces in place),
`json.loads` becomes a fuel-based JSON parser over the JSON fragment the
adapter exchanges (objects, arrays, strings with the basic escapes, integer
numbers, booleans, null), raised exceptions become `Except` errors, and the
one externally supplied utility (certificate-file creation) is a function
parameter.
-/

/-- A parsed JSON value, as produced by the JSON decoder.  Objects keep their
fields in insertion order, as Python dicts do. -/
inductive JsonValue where
  | null : JsonValue
  | bool (b : Bool) : JsonValue
  | num (n : Int) : JsonValue
  | str (s : String) : JsonValue
  | arr (elems : List JsonValue) : JsonValue
  | obj (fields : List (String × JsonValue)) : JsonValue

/-- Double quote character. -/
def quoteChar : Char := Char.ofNat 34

/-- Opening brace character. -/
def lbraceChar : Char := Char.ofNat 123

/-- Closing brace character. -/
def rbraceChar : Char := Char.ofNat 125

/-- Opening bracket character. -/
def lbrackChar : Char := Char.ofNat 91

/-- Closing bracket character. -/
def rbrackChar : Char := Char.ofNat 93

/-- Comma character. -/
def commaChar : Char := Char.ofNat 44

/-- Colon character. -/
def colonChar : Char := Char.ofNat 58

/-- Backslash character. -/
def backslashChar : Char := Char.ofNat 92

/-- Minus sign character. -/
def minusChar : Char := Char.ofNat 45

/-- JSON whitespace: space, tab, line feed, carriage return. -/
def isJsonWs (c : Char) : Bool :=
  c.toNat = 32 || c.toNat = 9 || c.toNat = 10 || c.toNat = 13

/-- ASCII digit test. -/
def isDigitChar (c : Char) : Bool :=
  48 ≤ c.toNat && c.toNat ≤ 57

/-- Drop leading JSON whitespace. -/
def skipWs : List Char → List Char
  | [] => []
  | c :: cs => if isJsonWs c then skipWs cs else c :: cs

/-- Python dict lookup on an association list: the value stored at `k`. -/
def getKey : List (String × JsonValue) → String → Option JsonValue
  | [], _ => none
  | (k0, v0) :: rest, k => if k0 = k then some v0 else getKey rest k

/-- Python dict assignment on an association list: replace the value at `k`
in place when the key is present, append the pair otherwise. -/
def setKey : List (String × JsonValue) → String → JsonValue → List (String × JsonValue)
  | [], k, v => [(k, v)]
  | (k0, v0) :: rest, k, v =>
      if k0 = k then (k, v) :: rest else (k0, v0) :: setKey rest k v

/-- Read the remainder of a JSON string literal (the opening quote is already
consumed), handling the single-character escapes. -/
def parseStringRest : Nat → List Char → List Char → Except String (String × List Char)
  | 0, _, _ => .error "Unterminated string"
  | _ + 1, [], _ => .error "Unterminated string"
  | fuel + 1, c :: rest, acc =>
      if c = quoteChar then .ok (String.mk acc.reverse, rest)
      else if c = backslashChar then
        match rest with
        | [] => .error "Unterminated string"
        | e :: rest2 =>
            if e = quoteChar then parseStringRest fuel rest2 (quoteChar :: acc)
            else if e = backslashChar then parseStringRest fuel rest2 (backslashChar :: acc)
            else if e.toNat = 47 then parseStringRest fuel rest2 (e :: acc)
            else if e.toNat = 110 then parseStringRest fuel rest2 (Char.ofNat 10 :: acc)
            else if e.toNat = 116 then parseStringRest fuel rest2 (Char.ofNat 9 :: acc)
            else if e.toNat = 114 then parseStringRest fuel rest2 (Char.ofNat 13 :: acc)
            else if e.toNat = 98 then parseStringRest fuel rest2 (Char.ofNat 8 :: acc)
            else if e.toNat = 102 then parseStringRest fuel rest2 (Char.ofNat 12 :: acc)
            else .error "Invalid escape"
      else parseStringRest fuel rest (c :: acc)

/-- Split a leading run of ASCII digits from the rest of the input. -/
def takeDigits : List Char → List Char × List Char
  | [] => ([], [])
  | c :: cs =>
      if isDigitChar c then
        let (ds, rest) := takeDigits cs
        (c :: ds, rest)
      else ([], c :: cs)

/-- Numeric value of a digit run. -/
def digitsToNat : List Char → Nat → Nat
  | [], acc => acc
  | c :: cs, acc => digitsToNat cs (acc * 10 + (c.toNat - 48))

mutual

/-- Parse one JSON value, returning it with the unconsumed input. -/
def parseValue : Nat → List Char → Except String (JsonValue × List Char)
  | 0, _ => .error "Expecting value"
  | fuel + 1, cs =>
      match skipWs cs with
      | [] => .error "Expecting value"
      | c :: rest =>
          if c = lbraceChar then parseObjBody fuel rest
          else if c = lbrackChar then parseArrBody fuel rest
          else if c = quoteChar then
            match parseStringRest fuel rest [] with
            | .error e => .error e
            | .ok (s, rest2) => .ok (.str s, rest2)
          else if c = minusChar then
            match takeDigits rest with
            | ([], _) => .error "Expecting value"
            | (ds, rest2) => .ok (.num (-(digitsToNat ds 0 : Int)), rest2)
          else if isDigitChar c then
            match takeDigits rest with
            | (ds, rest2) => .ok (.num (digitsToNat (c :: ds) 0 : Int), rest2)
          else if (c :: rest).take 4 = "true".data then
            .ok (.bool true, (c :: rest).drop 4)
          else if (c :: rest).take 5 = "false".data then
            .ok (.bool false, (c :: rest).drop 5)
          else if (c :: rest).take 4 = "null".data then
            .ok (.null, (c :: rest).drop 4)
          else .error "Expecting value"

/-- Parse the body of a JSON object (the opening brace is already consumed). -/
def parseObjBody : Nat → List Char → Except String (JsonValue × List Char)
  | 0, _ => .error "Expecting property name enclosed in double quotes"
  | fuel + 1, cs =>
      match skipWs cs with
      | [] => .error "Expecting property name enclosed in double quotes"
      | c :: rest =>
          if c = rbraceChar then .ok (.obj [], rest)
          else if c = quoteChar then parseMembers fuel (c :: rest) []
          else .error "Expecting property name enclosed in double quotes"

/-- Parse the members of a JSON object, accumulating fields with dict
assignment semantics so that a duplicated key keeps its last value. -/
def parseMembers : Nat → List Char → List (String × JsonValue) →
    Except String (JsonValue × List Char)
  | 0, _, _ => .error "Expecting property name enclosed in double quotes"
  | fuel + 1, cs, acc =>
      match skipWs cs with
      | [] => .error "Expecting property name enclosed in double quotes"
      | c :: rest =>
          if c = quoteChar then
            match parseStringRest fuel rest [] with
            | .error e => .error e
            | .ok (key, rest2) =>
                match skipWs rest2 with
                | [] => .error "Expecting colon delimiter"
                | c2 :: rest3 =>
                    if c2 = colonChar then
                      match parseValue fuel rest3 with
                      | .error e => .error e
                      | .ok (v, rest4) =>
                          let acc2 := setKey acc key v
                          match skipWs rest4 with
                          | [] => .error "Expecting comma delimiter"
                          | c3 :: rest5 =>
                              if c3 = commaChar then parseMembers fuel rest5 acc2
                              else if c3 = rbraceChar then .ok (.obj acc2, rest5)
                              else .error "Expecting comma delimiter"
                    else .error "Expecting colon delimiter"
          else .error "Expecting property name enclosed in double quotes"

/-- Parse the body of a JSON array (the opening bracket is already consumed). -/
def parseArrBody : Nat → List Char → Except String (JsonValue × List Char)
  | 0, _ => .error "Expecting value"
  | fuel + 1, cs =>
      match skipWs cs with
      | [] => .error "Expecting value"
      | c :: rest =>
          if c = rbrackChar then .ok (.arr [], rest)
          else parseElements fuel (c :: rest) []

/-- Parse the elements of a JSON array. -/
def parseElements : Nat → List Char → List JsonValue →
    Except String (JsonValue × List Char)
  | 0, _, _ => .error "Expecting value"
  | fuel + 1, cs, acc =>
      match parseValue fuel cs with
      | .error e => .error e
      | .ok (v, rest) =>
          match skipWs rest with
          | [] => .error "Expecting comma delimiter"
          | c :: rest2 =>
              if c = commaChar then parseElements fuel rest2 (acc ++ [v])
              else if c = rbrackChar then .ok (.arr (acc ++ [v]), rest2)
              else .error "Expecting comma delimiter"

end

/-- Model of the standard library JSON decoder `json.loads`: parse a complete
JSON document, an error carrying the decode message on malformed input. -/
def json_loads (s : String) : Except String JsonValue :=
  match parseValue (2 * s.length + 2) s.data with
  | .error e => .error e
  | .ok (v, rest) => if skipWs rest = [] then .ok v else .error "Extra data"

/-- Errors the adapter can raise while deriving connection extras.
`supersetException` is the domain-specific configuration error of
`get_extra_params`, carrying its message and the wrapped JSON decode error;
`attributeError` and `typeError` are the uncaught runtime errors hit when a
pre-existing `engine_params` or `connect_args` value is not a mapping. -/
inductive DbEngineError where
  | supersetException (msg : String) (cause : String) : DbEngineError
  | attributeError : DbEngineError
  | typeError : DbEngineError
deriving DecidableEq

/-- The two fields of the database record that `get_extra_params` reads:
the JSON-encoded extras text (nullable) and the optional server
certificate. -/
structure Database where
  extra : Option String
  server_cert : Option String

/-- The Python expression `database.extra or "\x7b\x7d"`: a missing or empty
extras text falls back to the empty JSON object. -/
def extraOrDefault : Option String → String
  | none => "\x7b\x7d"
  | some s => if s = "" then "\x7b\x7d" else s

/-- The certificate branch of `get_extra_params`: on the parsed extras,
fetch `engine_params` (default empty dict), fetch its `connect_args`
(default empty dict), assign `scheme` and then `ssl_verify_cert`, and store
the updated dicts back.  A non-dict where a dict is expected raises the
corresponding runtime error, exactly as the Python attribute access or item
assignment would. -/
def addCertParams (create_ssl_cert_file : String → String) (cert : String) :
    JsonValue → Except DbEngineError JsonValue
  | .obj o =>
      match (getKey o "engine_params").getD (.obj []) with
      | .obj ep =>
          match (getKey ep "connect_args").getD (.obj []) with
          | .obj ca =>
              let ca2 := setKey (setKey ca "scheme" (.str "https"))
                "ssl_verify_cert" (.str (create_ssl_cert_file cert))
              .ok (.obj (setKey o "engine_params" (.obj (setKey ep "connect_args" (.obj ca2)))))
          | _ => .error .typeError
      | _ => .error .attributeError
  | _ => .error .attributeError

/-- Model of `DruidEngineSpec.get_extra_params`: parse the extras text as JSON,
wrapping a decode failure in a `SupersetException`; when a server
certificate is present, force `engine_params.connect_args.scheme` to
`https` and point `ssl_verify_cert` at the certificate file created by the
external utility (passed here as the parameter `create_ssl_cert_file`). -/
def get_extra_params (create_ssl_cert_file : String → String) (database : Database) :
    Except DbEngineError JsonValue :=
  match json_loads (extraOrDefault database.extra) with
  | .error ex => .error (.supersetException "Unable to parse database extras" ex)
  | .ok extra =>
      match database.server_cert with
      | none => .ok extra
      | some cert => addCertParams create_ssl_cert_file cert extra

/-- Modelled from the spec: the ORM column record of the out-of-scope table
model.  Only the column name and the timestamp flag are touched by this
file; every other field is abstracted into `rest`. -/
structure TableColumn (α : Type) where
  column_name : String
  is_dttm : Bool
  rest : α

/-- Model of `DruidEngineSpec.alter_new_orm_column`: mark the reserved `__time`
column as a timestamp column.  The mutation of the caller-owned record is
embedded as returning the updated record. -/
def alter_new_orm_column {α : Type} (orm_col : TableColumn α) : TableColumn α :=
  if orm_col.column_name = "__time" then { orm_col with is_dttm := true } else orm_col

/-- A Python `datetime.datetime` value: the fields `convert_dttm` can read. -/
structure PyDateTime where
  year : Nat
  month : Nat
  day : Nat
  hour : Nat
  minute : Nat
  second : Nat
  microsecond : Nat

/-- Left-pad a number to two digits, as the datetime formatter does. -/
def pad2 (n : Nat) : String :=
  if n < 10 then "0" ++ toString n else toString n

/-- Left-pad a number to four digits, as the datetime formatter does for
years. -/
def pad4 (n : Nat) : String :=
  if n < 10 then "000" ++ toString n
  else if n < 100 then "00" ++ toString n
  else if n < 1000 then "0" ++ toString n
  else toString n

/-- Model of `dttm.date().isoformat()`: the calendar-date portion `YYYY-MM-DD`. -/
def dateIsoformat (d : PyDateTime) : String :=
  pad4 d.year ++ "-" ++ pad2 d.month ++ "-" ++ pad2 d.day

/-- Python `dttm.isoformat(timespec="seconds")`: ISO-8601 at second
precision, with the sub-second part always dropped. -/
def isoformatSeconds (d : PyDateTime) : String :=
  dateIsoformat d ++ "T" ++ pad2 d.hour ++ ":" ++ pad2 d.minute ++ ":" ++ pad2 d.second

/-- Model of Python `str.upper()` on the ASCII fragment. -/
def pyUpperString (s : String) : String :=
  String.mk (s.data.map Char.toUpper)

namespace TemporalType

/-- Modelled from the spec: the `DATE` member of the out-of-scope
temporal-type string enumeration; its value is the member name. -/
def DATE : String := "DATE"

/-- Modelled from the spec: the `DATETIME` member of the temporal-type
string enumeration. -/
def DATETIME : String := "DATETIME"

/-- Modelled from the spec: the `TIMESTAMP` member of the temporal-type
string enumeration. -/
def TIMESTAMP : String := "TIMESTAMP"

end TemporalType

/-- Model of `DruidEngineSpec.convert_dttm`: render a timestamp literal for the
upper-cased target type tag, passing through with no result on an
unrecognized tag. -/
def convert_dttm (target_type : String) (dttm : PyDateTime) : Option String :=
  if pyUpperString target_type = TemporalType.DATE then
    some ("CAST(TIME_PARSE(\x27" ++ dateIsoformat dttm ++ "\x27) AS DATE)")
  else if pyUpperString target_type = TemporalType.DATETIME ∨
      pyUpperString target_type = TemporalType.TIMESTAMP then
    some ("TIME_PARSE(\x27" ++ isoformatSeconds dttm ++ "\x27)")
  else none

/-- Model of `DruidEngineSpec._time_grain_expressions`: the static table from grain
codes (`none` meaning no truncation) to SQL templates over `\x7bcol\x7d`. -/
def _time_grain_expressions : List (Option String × String) :=
  [ (none, "{col}"),
    (some "PT1S", "FLOOR({col} TO SECOND)"),
    (some "PT5S", "TIME_FLOOR({col}, \x27PT5S\x27)"),
    (some "PT30S", "TIME_FLOOR({col}, \x27PT30S\x27)"),
    (some "PT1M", "FLOOR({col} TO MINUTE)"),
    (some "PT5M", "TIME_FLOOR({col}, \x27PT5M\x27)"),
    (some "PT10M", "TIME_FLOOR({col}, \x27PT10M\x27)"),
    (some "PT15M", "TIME_FLOOR({col}, \x27PT15M\x27)"),
    (some "PT0.5H", "TIME_FLOOR({col}, \x27PT30M\x27)"),
    (some "PT1H", "FLOOR({col} TO HOUR)"),
    (some "PT6H", "TIME_FLOOR({col}, \x27PT6H\x27)"),
    (some "P1D", "FLOOR({col} TO DAY)"),
    (some "P1W", "FLOOR({col} TO WEEK)"),
    (some "P1M", "FLOOR({col} TO MONTH)"),
    (some "P0.25Y", "FLOOR({col} TO QUARTER)"),
    (some "P1Y", "FLOOR({col} TO YEAR)"),
    (some "P1W/1970-01-03T00:00:00Z",
      "TIMESTAMPADD(DAY, 5, FLOOR(TIMESTAMPADD(DAY, 1, {col}) TO WEEK))"),
    (some "1969-12-28T00:00:00Z/P1W",
      "TIMESTAMPADD(DAY, -1, FLOOR(TIMESTAMPADD(DAY, 1, {col}) TO WEEK))") ]

/-- Dictionary lookup into the time-grain table, as the base class performs
it. -/
def timeGrainLookup (grain : Option String) : Option String :=
  match _time_grain_expressions.find? (fun p => p.1 = grain) with
  | none => none
  | some p => some p.2

/-- Model of `DruidEngineSpec.epoch_to_dttm`. -/
def epoch_to_dttm : String := "MILLIS_TO_TIMESTAMP({col} * 1000)"

/-- Model of `DruidEngineSpec.epoch_ms_to_dttm`. -/
def epoch_ms_to_dttm : String := "MILLIS_TO_TIMESTAMP({col})"

/-- Holds when an optional JSON value is absent or is an object: the shape
under which the certificate branch can treat it as a dict. -/
def isObjOrMissing : Option JsonValue → Bool
  | none => true
  | some (.obj _) => true
  | _ => false

/-- The fields of the pre-existing `engine_params` object of parsed extras,
empty when the key is absent or not an object. -/
def epFields (o : List (String × JsonValue)) : List (String × JsonValue) :=
  match getKey o "engine_params" with
  | some (.obj ep) => ep
  | _ => []

/-- The fields of the pre-existing `engine_params.connect_args` object,
empty when absent or not an object. -/
def caFields (o : List (String × JsonValue)) : List (String × JsonValue) :=
  match getKey (epFields o) "connect_args" with
  | some (.obj ca) => ca
  | _ => []

/-- A concrete stand-in for the external certificate-file utility, used by
the closed witness statements. -/
def appendPem : String → String := fun c => c ++ ".pem"

/-- A database record whose extras hold unrelated keys next to pre-existing
`engine_params.connect_args` entries, with a server certificate. -/
def dbWithCert : Database :=
  { extra := some "\x7b\x22a\x22: 1, \x22engine_params\x22: \x7b\x22connect_args\x22: \x7b\x22scheme\x22: \x22http\x22\x7d, \x22k\x22: 2\x7d\x7d",
    server_cert := some "CERT" }

/-- The parsed extras of `dbWithCert`. -/
def oWithCert : List (String × JsonValue) :=
  [("a", .num 1),
   ("engine_params", .obj [("connect_args", .obj [("scheme", .str "http")]), ("k", .num 2)])]

/-- A database record whose extras parse as a JSON object whose
`engine_params` value is the number 3 rather than an object, with a server
certificate. -/
def dbNonObjEngineParams : Database :=
  { extra := some "\x7b\x22engine_params\x22: 3\x7d", server_cert := some "CERT" }

theorem getKey_setKey_self (o : List (String × JsonValue)) (k : String) (v : JsonValue) :
    getKey (setKey o k v) k = some v := by
  induction o with
  | nil => simp [setKey, getKey]
  | cons p rest ih =>
      obtain ⟨k0, v0⟩ := p
      by_cases h : k0 = k
      · simp [setKey, getKey, h]
      · simp [setKey, getKey, h, ih]

theorem getKey_setKey_ne (o : List (String × JsonValue)) (k k2 : String) (v : JsonValue)
    (h : k2 ≠ k) : getKey (setKey o k v) k2 = getKey o k2 := by
  induction o with
  | nil => simp [setKey, getKey, Ne.symm h]
  | cons p rest ih =>
      obtain ⟨k0, v0⟩ := p
      by_cases h0 : k0 = k
      · subst h0
        simp [setKey, getKey, Ne.symm h]
      · simp [setKey, getKey, h0, ih]

theorem toNat_char_ofNat_of_lt (n : Nat) (h : n < 55296) : (Char.ofNat n).toNat = n := by
  have hv : n.isValidChar := Or.inl h
  rw [Char.ofNat, dif_pos hv]
  rfl

theorem charToUpperIdem (c : Char) : c.toUpper.toUpper = c.toUpper := by
  by_cases h : c.toNat ≥ 97 ∧ c.toNat ≤ 122
  · have h1 : c.toUpper = Char.ofNat (c.toNat - 32) := by
      simp only [Char.toUpper]
      rw [if_pos h]
    have h2 : (Char.ofNat (c.toNat - 32)).toNat = c.toNat - 32 :=
      toNat_char_ofNat_of_lt _ (by omega)
    rw [h1]
    simp only [Char.toUpper]
    rw [if_neg (by rw [h2]; omega)]
  · have h1 : c.toUpper = c := by
      simp only [Char.toUpper]
      rw [if_neg h]
    rw [h1, h1]

theorem mapToUpperIdem (l : List Char) :
    (l.map Char.toUpper).map Char.toUpper = l.map Char.toUpper := by
  induction l with
  | nil => rfl
  | cons c rest ih => simp [charToUpperIdem c, ih]

theorem pyUpperString_idem (s : String) :
    pyUpperString (pyUpperString s) = pyUpperString s := by
  simp only [pyUpperString]
  exact congrArg String.mk (mapToUpperIdem s.data)

theorem addCertParams_eq (f : String → String) (cert : String)
    (o : List (String × JsonValue))
    (hep : isObjOrMissing (getKey o "engine_params") = true)
    (hca : isObjOrMissing (getKey (epFields o) "connect_args") = true) :
    addCertParams f cert (.obj o) =
      .ok (.obj (setKey o "engine_params" (.obj (setKey (epFields o) "connect_args"
        (.obj (setKey (setKey (caFields o) "scheme" (.str "https"))
          "ssl_verify_cert" (.str (f cert)))))))) := by
  have hepFields : (getKey o "engine_params").getD (.obj []) = .obj (epFields o) := by
    unfold epFields
    rcases h : getKey o "engine_params" with _ | v
    · rfl
    · rw [h] at hep
      cases v <;> simp_all [isObjOrMissing]
  have hcaFields : (getKey (epFields o) "connect_args").getD (.obj []) = .obj (caFields o) := by
    unfold caFields
    rcases h : getKey (epFields o) "connect_args" with _ | v
    · rfl
    · rw [h] at hca
      cases v <;> simp_all [isObjOrMissing]
  simp only [addCertParams, hepFields, hcaFields]

/-- C3: for every grain code present in the time-grain expression table,
looking up that code returns exactly the template string listed in the
interface section of the specification, byte for byte, and the `none` grain
maps to the unmodified placeholder. -/
theorem time_grain_table_spec :
    timeGrainLookup none = some "{col}" ∧
    timeGrainLookup (some "PT1S") = some "FLOOR({col} TO SECOND)" ∧
    timeGrainLookup (some "PT5S") = some "TIME_FLOOR({col}, \x27PT5S\x27)" ∧
    timeGrainLookup (some "PT30S") = some "TIME_FLOOR({col}, \x27PT30S\x27)" ∧
    timeGrainLookup (some "PT1M") = some "FLOOR({col} TO MINUTE)" ∧
    timeGrainLookup (some "PT5M") = some "TIME_FLOOR({col}, \x27PT5M\x27)" ∧
    timeGrainLookup (some "PT10M") = some "TIME_FLOOR({col}, \x27PT10M\x27)" ∧
    timeGrainLookup (some "PT15M") = some "TIME_FLOOR({col}, \x27PT15M\x27)" ∧
    timeGrainLookup (some "PT0.5H") = some "TIME_FLOOR({col}, \x27PT30M\x27)" ∧
    timeGrainLookup (some "PT1H") = some "FLOOR({col} TO HOUR)" ∧
    timeGrainLookup (some "PT6H") = some "TIME_FLOOR({col}, \x27PT6H\x27)" ∧
    timeGrainLookup (some "P1D") = some "FLOOR({col} TO DAY)" ∧
    timeGrainLookup (some "P1W") = some "FLOOR({col} TO WEEK)" ∧
    timeGrainLookup (some "P1M") = some "FLOOR({col} TO MONTH)" ∧
    timeGrainLookup (some "P0.25Y") = some "FLOOR({col} TO QUARTER)" ∧
    timeGrainLookup (some "P1Y") = some "FLOOR({col} TO YEAR)" ∧
    timeGrainLookup (some "P1W/1970-01-03T00:00:00Z") =
      some "TIMESTAMPADD(DAY, 5, FLOOR(TIMESTAMPADD(DAY, 1, {col}) TO WEEK))" ∧
    timeGrainLookup (some "1969-12-28T00:00:00Z/P1W") =
      some "TIMESTAMPADD(DAY, -1, FLOOR(TIMESTAMPADD(DAY, 1, {col}) TO WEEK))" := by
  refine ⟨rfl, rfl, rfl, rfl, rfl, rfl, rfl, rfl, rfl, rfl, rfl, rfl, rfl, rfl, rfl, rfl,
    rfl, rfl⟩

/-- C4: for every datetime, `convert_dttm` at target type DATETIME or
TIMESTAMP yields a TIME_PARSE expression over the ISO-8601 rendering at
second precision, and the result never depends on the microsecond field. -/
theorem convert_dttm_datetime_timestamp (t : String) (d : PyDateTime)
    (h : t = TemporalType.DATETIME ∨ t = TemporalType.TIMESTAMP) :
    convert_dttm t d = some ("TIME_PARSE(\x27" ++ isoformatSeconds d ++ "\x27)") ∧
    ∀ microsec : Nat,
      convert_dttm t { d with microsecond := microsec } = convert_dttm t d := by
  rcases h with h | h <;> subst h <;> exact ⟨rfl, fun _ => rfl⟩

/-- Witness for C4: the example datetime carrying microseconds yields the
second-precision literal with no sub-second fraction. -/
theorem convert_dttm_datetime_timestamp_witness :
    convert_dttm "DATETIME" ⟨2024, 1, 5, 12, 30, 45, 123456⟩ =
      some "TIME_PARSE(\x272024-01-05T12:30:45\x27)" := by
  rw [(convert_dttm_datetime_timestamp "DATETIME" ⟨2024, 1, 5, 12, 30, 45, 123456⟩
    (Or.inl rfl)).1]
  rfl

/-- C5: for every datetime, `convert_dttm` at target type DATE yields a
CAST of a TIME_PARSE expression over the calendar-date portion only, and
the result never depends on the time-of-day fields. -/
theorem convert_dttm_date (t : String) (d : PyDateTime) (h : t = TemporalType.DATE) :
    convert_dttm t d = some ("CAST(TIME_PARSE(\x27" ++ dateIsoformat d ++ "\x27) AS DATE)") ∧
    ∀ hh mm ss microsec : Nat,
      convert_dttm t
          { d with hour := hh, minute := mm, second := ss, microsecond := microsec } =
        convert_dttm t d := by
  subst h
  exact ⟨rfl, fun _ _ _ _ => rfl⟩

/-- Witness for C5: the example date yields the parse-and-cast literal,
discarding the time of day. -/
theorem convert_dttm_date_witness :
    convert_dttm "DATE" ⟨2024, 1, 5, 12, 30, 45, 0⟩ =
      some "CAST(TIME_PARSE(\x272024-01-05\x27) AS DATE)" := by
  rw [(convert_dttm_date "DATE" ⟨2024, 1, 5, 12, 30, 45, 0⟩ rfl).1]
  rfl

/-- C6: for every datetime and every target-type tag denoting none of the
three temporal types, that is, whose upper-casing is none of DATE, DATETIME
and TIMESTAMP, `convert_dttm` returns no result and raises no error. -/
theorem convert_dttm_unrecognized (t : String) (d : PyDateTime)
    (h1 : pyUpperString t ≠ TemporalType.DATE)
    (h2 : pyUpperString t ≠ TemporalType.DATETIME)
    (h3 : pyUpperString t ≠ TemporalType.TIMESTAMP) :
    convert_dttm t d = none := by
  simp only [convert_dttm]
  rw [if_neg h1, if_neg (fun hor => hor.elim h2 h3)]

/-- Witness for C6: an unrecognized tag is a silent pass-through. -/
theorem convert_dttm_unrecognized_witness :
    convert_dttm "VARCHAR" ⟨2024, 1, 5, 12, 30, 45, 0⟩ = none :=
  convert_dttm_unrecognized "VARCHAR" ⟨2024, 1, 5, 12, 30, 45, 0⟩
    (by decide) (by decide) (by decide)

/-- C10: `convert_dttm` is case-insensitive in the target-type tag: every
tag behaves exactly like its upper-cased form. -/
theorem convert_dttm_case_insensitive (t : String) (d : PyDateTime) :
    convert_dttm t d = convert_dttm (pyUpperString t) d := by
  simp only [convert_dttm, pyUpperString_idem]

/-- Counterexample to C1 as stated: the extras parse as a JSON object and a
certificate is present, yet `get_extra_params` does not return the enriched
mapping, because the pre-existing `engine_params` value is the number 3 and
the attribute access on it fails. -/
theorem get_extra_params_nonobj_counterexample :
    json_loads "\x7b\x22engine_params\x22: 3\x7d" = .ok (.obj [("engine_params", .num 3)]) ∧
    get_extra_params appendPem dbNonObjEngineParams = .error .attributeError :=
  ⟨rfl, rfl⟩

/-- C1 (amended): for every database record whose extras parse as a JSON
object in which a pre-existing `engine_params` value, and a pre-existing
`engine_params.connect_args` value, are themselves objects when present,
and whose server certificate is present, `get_extra_params` returns the
parsed extras with `engine_params.connect_args.scheme` set to `https` and
`engine_params.connect_args.ssl_verify_cert` set to the path returned by
the external utility, every other key at each of the three levels kept. -/
theorem get_extra_params_with_cert (f : String → String) (db : Database)
    (o : List (String × JsonValue)) (cert : String)
    (hp : json_loads (extraOrDefault db.extra) = .ok (.obj o))
    (hc : db.server_cert = some cert)
    (hep : isObjOrMissing (getKey o "engine_params") = true)
    (hca : isObjOrMissing (getKey (epFields o) "connect_args") = true) :
    ∃ o2 ep2 ca2,
      get_extra_params f db = .ok (.obj o2) ∧
      getKey o2 "engine_params" = some (.obj ep2) ∧
      getKey ep2 "connect_args" = some (.obj ca2) ∧
      getKey ca2 "scheme" = some (.str "https") ∧
      getKey ca2 "ssl_verify_cert" = some (.str (f cert)) ∧
      (∀ k, k ≠ "engine_params" → getKey o2 k = getKey o k) ∧
      (∀ k, k ≠ "connect_args" → getKey ep2 k = getKey (epFields o) k) ∧
      (∀ k, k ≠ "scheme" → k ≠ "ssl_verify_cert" → getKey ca2 k = getKey (caFields o) k) := by
  refine ⟨setKey o "engine_params" (.obj (setKey (epFields o) "connect_args"
      (.obj (setKey (setKey (caFields o) "scheme" (.str "https"))
        "ssl_verify_cert" (.str (f cert)))))),
    setKey (epFields o) "connect_args"
      (.obj (setKey (setKey (caFields o) "scheme" (.str "https"))
        "ssl_verify_cert" (.str (f cert)))),
    setKey (setKey (caFields o) "scheme" (.str "https"))
      "ssl_verify_cert" (.str (f cert)),
    ?_, ?_, ?_, ?_, ?_, ?_, ?_, ?_⟩
  · simp only [get_extra_params, hp, hc]
    exact addCertParams_eq f cert o hep hca
  · exact getKey_setKey_self _ _ _
  · exact getKey_setKey_self _ _ _
  · rw [getKey_setKey_ne _ _ _ _ (by decide)]
    exact getKey_setKey_self _ _ _
  · exact getKey_setKey_self _ _ _
  · intro k hk
    exact getKey_setKey_ne _ _ _ _ hk
  · intro k hk
    exact getKey_setKey_ne _ _ _ _ hk
  · intro k hk1 hk2
    rw [getKey_setKey_ne _ _ _ _ hk2]
    exact getKey_setKey_ne _ _ _ _ hk1

/-- Witness for C1 (amended): extras with an unrelated top-level key, a
pre-existing foreign key under `engine_params`, and a pre-existing `scheme`
under `connect_args`, with a certificate present. -/
theorem get_extra_params_with_cert_witness :
    ∃ o2 ep2 ca2,
      get_extra_params appendPem dbWithCert = .ok (.obj o2) ∧
      getKey o2 "engine_params" = some (.obj ep2) ∧
      getKey ep2 "connect_args" = some (.obj ca2) ∧
      getKey ca2 "scheme" = some (.str "https") ∧
      getKey ca2 "ssl_verify_cert" = some (.str (appendPem "CERT")) ∧
      (∀ k, k ≠ "engine_params" → getKey o2 k = getKey oWithCert k) ∧
      (∀ k, k ≠ "connect_args" → getKey ep2 k = getKey (epFields oWithCert) k) ∧
      (∀ k, k ≠ "scheme" → k ≠ "ssl_verify_cert" →
        getKey ca2 k = getKey (caFields oWithCert) k) :=
  get_extra_params_with_cert appendPem dbWithCert oWithCert "CERT" rfl rfl rfl rfl

/-- C2: for every database record holding extras text that is not valid
JSON, `get_extra_params` fails with the domain-specific configuration-parse
error wrapping the underlying JSON decode error. -/
theorem get_extra_params_invalid_json (f : String → String) (db : Database)
    (s e : String) (hs : db.extra = some s) (hne : s ≠ "")
    (he : json_loads s = .error e) :
    get_extra_params f db =
      .error (.supersetException "Unable to parse database extras" e) := by
  have hd : extraOrDefault db.extra = s := by
    rw [hs]
    simp [extraOrDefault, hne]
  simp only [get_extra_params, hd, he]

/-- Witness for C2: the malformed extras text consisting of a lone opening
brace fails with the wrapped configuration-parse error. -/
theorem get_extra_params_invalid_json_witness :
    get_extra_params appendPem { extra := some "\x7b", server_cert := none } =
      .error (.supersetException "Unable to parse database extras"
        "Expecting property name enclosed in double quotes") :=
  get_extra_params_invalid_json appendPem
    { extra := some "\x7b", server_cert := none } "\x7b"
    "Expecting property name enclosed in double quotes" rfl (by decide) rfl

/-- C7: the column hook marks a column named `__time` as a timestamp column
and changes nothing else; any other name leaves the record untouched. -/
theorem alter_new_orm_column_spec {α : Type} (col : TableColumn α) :
    (col.column_name = "__time" → alter_new_orm_column col = { col with is_dttm := true }) ∧
    (col.column_name ≠ "__time" → alter_new_orm_column col = col) ∧
    (alter_new_orm_column col).column_name = col.column_name ∧
    (alter_new_orm_column col).rest = col.rest := by
  refine ⟨fun h => ?_, fun h => ?_, ?_, ?_⟩
  · simp [alter_new_orm_column, h]
  · simp [alter_new_orm_column, h]
  · by_cases h : col.column_name = "__time" <;> simp [alter_new_orm_column, h]
  · by_cases h : col.column_name = "__time" <;> simp [alter_new_orm_column, h]

/-- Witness for C7: the reserved name gets its flag set, a foreign name is
left untouched. -/
theorem alter_new_orm_column_witness :
    alter_new_orm_column ⟨"__time", false, (0 : Nat)⟩ = ⟨"__time", true, (0 : Nat)⟩ ∧
    alter_new_orm_column ⟨"ds", false, (0 : Nat)⟩ = ⟨"ds", false, (0 : Nat)⟩ :=
  ⟨(alter_new_orm_column_spec ⟨"__time", false, (0 : Nat)⟩).1 rfl,
   (alter_new_orm_column_spec ⟨"ds", false, (0 : Nat)⟩).2.1 (by decide)⟩

/-- C8: with no server certificate the parsed extras come back unchanged,
whatever keys they hold. -/
theorem get_extra_params_no_cert (f : String → String) (db : Database)
    (v : JsonValue) (hc : db.server_cert = none)
    (hp : json_loads (extraOrDefault db.extra) = .ok v) :
    get_extra_params f db = .ok v := by
  simp only [get_extra_params, hp, hc]

/-- Witness for C8: extras consisting of the empty object and no
certificate yield the empty mapping. -/
theorem get_extra_params_no_cert_witness :
    get_extra_params appendPem { extra := some "\x7b\x7d", server_cert := none } =
      .ok (.obj []) :=
  get_extra_params_no_cert appendPem
    { extra := some "\x7b\x7d", server_cert := none } (.obj []) rfl rfl

/-- C9: a missing or empty extras field raises no parse error: it is
treated as the empty object, so without a certificate the result is the
empty mapping, and with one it is the mapping holding just the two TLS
connection arguments. -/
theorem get_extra_params_absent_extra (f : String → String) (db : Database)
    (h : db.extra = none ∨ db.extra = some "") :
    (db.server_cert = none → get_extra_params f db = .ok (.obj [])) ∧
    (∀ cert, db.server_cert = some cert →
      get_extra_params f db = .ok (.obj [("engine_params", .obj [("connect_args",
        .obj [("scheme", .str "https"), ("ssl_verify_cert", .str (f cert))])])])) := by
  have hd : extraOrDefault db.extra = "\x7b\x7d" := by
    rcases h with h | h <;> rw [h] <;> rfl
  have hp : json_loads (extraOrDefault db.extra) = .ok (.obj []) := by
    rw [hd]
    rfl
  constructor
  · intro hc
    simp only [get_extra_params, hp, hc]
  · intro cert hc
    simp only [get_extra_params, hp, hc]
    rfl

/-- Witness for C9: a record with a null extras field and no certificate
yields the empty mapping. -/
theorem get_extra_params_absent_extra_witness :
    get_extra_params appendPem { extra := none, server_cert := none } = .ok (.obj []) :=
  (get_extra_params_absent_extra appendPem
    { extra := none, server_cert := none } (Or.inl rfl)).1 rfl
